import Mathlib

/-!
Verification of the client-side cached-collection store of the
business-brain-frontend repository.

The embedding covers:
* `src/contexts/DataContext.tsx`: the `DataState` record, `calculateStats`,
  `dataReducer`, `isStale`, `loadDocuments`, `loadConversations`;
* `src/contexts/GmailContext.tsx`: the Gmail provider state and its
  `setConnectionStatus`, `loadEmails`, `updateEmail`, `addEmail` setters;
* `src/lib/api.ts` response interceptor together with the single registered
  listener of the `auth:unauthorized` event (the auth reducer in
  `src/pages/Landing.tsx`).

Time is modelled as a natural-number millisecond clock passed explicitly
wherever the source calls `Date.now()`.  JavaScript `null`/`undefined` become
`Option`; the few truthiness checks the source performs on numbers and strings
(`!lastFetch`, `email || null`, `result.error || '...'`) are modelled exactly,
including their behaviour on `0` and `""`.
-/

set_option autoImplicit false

namespace BusinessBrain

/-- `document_type: 'pdf' | 'note' | 'audio'` from `documentService.ts`. -/
inductive DocumentType
  | pdf
  | note
  | audio
  deriving DecidableEq

/-- The fields of the `Document` interface (`documentService.ts`) that the
cache layer reads: its stable `id` and its `document_type` discriminant, plus
the display fields `title`, `created_at`, `updated_at`. -/
structure Document where
  id : String
  title : String
  document_type : DocumentType
  created_at : String
  updated_at : String
  deriving DecidableEq

/-- The fields of the `Conversation` interface (`conversationService.ts`) the
cache layer reads. -/
structure Conversation where
  id : String
  title : String
  message_count : Nat
  created_at : String
  updated_at : String
  deriving DecidableEq

/-- The cached `stats` record of `DataState` in `DataContext.tsx`. -/
structure Stats where
  totalDocuments : Nat
  totalNotes : Nat
  totalAudio : Nat
  totalItems : Nat
  totalConversations : Nat
  deriving DecidableEq

/-- `DataState` from `DataContext.tsx`.  Timestamps (`number | null`) become
`Option Nat`, error strings (`string | null`) become `Option String`. -/
structure DataState where
  documents : List Document
  conversations : List Conversation
  documentsLoading : Bool
  conversationsLoading : Bool
  documentsLastFetch : Option Nat
  conversationsLastFetch : Option Nat
  documentsError : Option String
  conversationsError : Option String
  stats : Stats
  hasInitializedDocuments : Bool
  hasInitializedConversations : Bool
  deriving DecidableEq

/-- The `DataAction` union type of `DataContext.tsx`. -/
inductive DataAction
  | DOCUMENTS_LOADING_START
  | DOCUMENTS_LOADING_SUCCESS (payload : List Document)
  | DOCUMENTS_LOADING_FAILURE (payload : String)
  | CONVERSATIONS_LOADING_START
  | CONVERSATIONS_LOADING_SUCCESS (payload : List Conversation)
  | CONVERSATIONS_LOADING_FAILURE (payload : String)
  | ADD_DOCUMENT (payload : Document)
  | UPDATE_DOCUMENT (payload : Document)
  | DELETE_DOCUMENT (payload : String)
  | ADD_CONVERSATION (payload : Conversation)
  | UPDATE_CONVERSATION (payload : Conversation)
  | DELETE_CONVERSATION (payload : String)
  | FORCE_REFRESH_DOCUMENTS
  | FORCE_REFRESH_CONVERSATIONS
  deriving DecidableEq

/-- `CACHE_DURATION = 3 * 60 * 1000` milliseconds (`DataContext.tsx`). -/
def CACHE_DURATION : Nat := 3 * 60 * 1000

/-- `calculateStats(documents, conversationCount)` from `DataContext.tsx`:
counts by `document_type`, total item count, and the conversation count. -/
def calculateStats (documents : List Document) (conversationCount : Nat) : Stats :=
  let totalDocuments := (documents.filter (fun d => d.document_type == DocumentType.pdf)).length
  let totalNotes := (documents.filter (fun d => d.document_type == DocumentType.note)).length
  let totalAudio := (documents.filter (fun d => d.document_type == DocumentType.audio)).length
  { totalDocuments := totalDocuments
    totalNotes := totalNotes
    totalAudio := totalAudio
    totalItems := documents.length
    totalConversations := conversationCount }

/-- `dataReducer(state, action)` from `DataContext.tsx`.  The reducer calls
`Date.now()` in its two success branches; that clock reading is the explicit
`now` argument here. -/
def dataReducer (now : Nat) (state : DataState) (action : DataAction) : DataState :=
  match action with
  | DataAction.DOCUMENTS_LOADING_START =>
      { state with documentsLoading := true, documentsError := none }
  | DataAction.DOCUMENTS_LOADING_SUCCESS payload =>
      { state with
          documents := payload
          documentsLoading := false
          documentsError := none
          documentsLastFetch := some now
          hasInitializedDocuments := true
          stats := calculateStats payload state.stats.totalConversations }
  | DataAction.DOCUMENTS_LOADING_FAILURE payload =>
      { state with
          documentsLoading := false
          documentsError := some payload
          hasInitializedDocuments := true }
  | DataAction.CONVERSATIONS_LOADING_START =>
      { state with conversationsLoading := true, conversationsError := none }
  | DataAction.CONVERSATIONS_LOADING_SUCCESS payload =>
      { state with
          conversations := payload
          conversationsLoading := false
          conversationsError := none
          conversationsLastFetch := some now
          hasInitializedConversations := true
          stats := calculateStats state.documents payload.length }
  | DataAction.CONVERSATIONS_LOADING_FAILURE payload =>
      { state with
          conversationsLoading := false
          conversationsError := some payload
          hasInitializedConversations := true }
  | DataAction.ADD_DOCUMENT payload =>
      let newDocuments := state.documents ++ [payload]
      { state with
          documents := newDocuments
          stats := calculateStats newDocuments state.stats.totalConversations }
  | DataAction.UPDATE_DOCUMENT payload =>
      let updatedDocuments := state.documents.map fun doc =>
        if doc.id == payload.id then payload else doc
      { state with
          documents := updatedDocuments
          stats := calculateStats updatedDocuments state.stats.totalConversations }
  | DataAction.DELETE_DOCUMENT payload =>
      let filteredDocuments := state.documents.filter fun doc => doc.id != payload
      { state with
          documents := filteredDocuments
          stats := calculateStats filteredDocuments state.stats.totalConversations }
  | DataAction.ADD_CONVERSATION payload =>
      let newConversations := payload :: state.conversations
      { state with
          conversations := newConversations
          stats := calculateStats state.documents newConversations.length }
  | DataAction.UPDATE_CONVERSATION payload =>
      { state with
          conversations := state.conversations.map fun conv =>
            if conv.id == payload.id then payload else conv }
  | DataAction.DELETE_CONVERSATION payload =>
      let filteredConversations := state.conversations.filter fun conv => conv.id != payload
      { state with
          conversations := filteredConversations
          stats := calculateStats state.documents filteredConversations.length }
  | DataAction.FORCE_REFRESH_DOCUMENTS =>
      { state with documentsLastFetch := none }
  | DataAction.FORCE_REFRESH_CONVERSATIONS =>
      { state with conversationsLastFetch := none }

/-- The `initialState` constant of `DataContext.tsx`. -/
def initialState : DataState :=
  { documents := []
    conversations := []
    documentsLoading := false
    conversationsLoading := false
    documentsLastFetch := none
    conversationsLastFetch := none
    documentsError := none
    conversationsError := none
    hasInitializedDocuments := false
    hasInitializedConversations := false
    stats :=
      { totalDocuments := 0
        totalNotes := 0
        totalAudio := 0
        totalItems := 0
        totalConversations := 0 } }

/-- The two collection names `'documents' | 'conversations'` accepted by
`isStale` in `DataContext.tsx`. -/
inductive CollType
  | documents
  | conversations
  deriving DecidableEq

/-- `isStale(type)` from `DataContext.tsx`, with `Date.now()` passed as `now`.
The source reads `if (!lastFetch) return true`: in JavaScript `!lastFetch` is
true both for `null` and for the number `0`, which the `t == 0` test mirrors.
Otherwise it returns `Date.now() - lastFetch > CACHE_DURATION`; for `now < t`
the JavaScript difference is negative hence not `> CACHE_DURATION`, and the
truncated `Nat` difference is `0`, giving the same boolean. -/
def isStale (now : Nat) (state : DataState) (type : CollType) : Bool :=
  let lastFetch :=
    match type with
    | CollType.documents => state.documentsLastFetch
    | CollType.conversations => state.conversationsLastFetch
  match lastFetch with
  | none => true
  | some t => if t == 0 then true else decide (now - t > CACHE_DURATION)

/-- `ApiResponse<T>` from the service modules: `{ success: boolean;
data?: T; error?: string }`. -/
structure ApiResponse (α : Type) where
  success : Bool
  data : Option α
  error : Option String
  deriving DecidableEq

/-- The payload of `documentService.getAllItemsByType()`: three lists of
normalized `Document`s grouped by type. -/
structure ItemsByType where
  documents : List Document
  notes : List Document
  audio : List Document
  deriving DecidableEq

/-- The payload of `conversationService.getConversations()`
(`ConversationListResponse`). -/
structure ConversationListResponse where
  conversations : List Conversation
  total : Nat
  deriving DecidableEq

/-- The outcome of one awaited service call inside a `load` function: either
the promise rejects (network error, modelled with the thrown `error.message`)
or it resolves to an `ApiResponse`. -/
inductive ServiceCall (α : Type)
  | throws (msg : String)
  | resolves (result : ApiResponse α)
  deriving DecidableEq

/-- `result.success && result.data` is false, or the call threw: every path of
a `load` that dispatches the `FAILURE` action. -/
def callFails {α : Type} : ServiceCall α → Bool
  | ServiceCall.throws _ => true
  | ServiceCall.resolves r => !(r.success && r.data.isSome)

/-- JavaScript `o || default` on an optional string: `undefined` and `""` are
falsy. -/
def jsOrElse (o : Option String) (default : String) : String :=
  match o with
  | none => default
  | some s => if s == "" then default else s

/-- The `error.message` a failing `load` records: the thrown message on a
rejected promise, else `result.error || default` (the message of the `Error`
the `load` body throws and immediately catches when `success`/`data` are
missing). -/
def failureMessage {α : Type} (default : String) : ServiceCall α → String
  | ServiceCall.throws msg => msg
  | ServiceCall.resolves r => jsOrElse r.error default

/-- The observable outcome of one `load` call: whether the Fetcher (service
call) was invoked, and the state after the call settles. -/
structure LoadResult where
  fetcherInvoked : Bool
  state : DataState
  deriving DecidableEq

/-- The body of `loadDocuments` past its two early returns (`DataContext.tsx`):
dispatch `DOCUMENTS_LOADING_START`, await
`documentService.getAllItemsByType()`, then dispatch `SUCCESS` with
`[...result.data.documents, ...result.data.notes, ...result.data.audio]` when
`result.success && result.data`, and `FAILURE` with the error message
otherwise (including a rejected promise, whose message the `catch` records). -/
def docFetchOutcome (now now2 : Nat) (state : DataState)
    (call : ServiceCall ItemsByType) : LoadResult :=
  let s1 := dataReducer now state DataAction.DOCUMENTS_LOADING_START
  match call with
  | ServiceCall.throws msg =>
      { fetcherInvoked := true
        state := dataReducer now2 s1 (DataAction.DOCUMENTS_LOADING_FAILURE msg) }
  | ServiceCall.resolves r =>
      match r.success, r.data with
      | true, some d =>
          let allItems := d.documents ++ d.notes ++ d.audio
          { fetcherInvoked := true
            state := dataReducer now2 s1 (DataAction.DOCUMENTS_LOADING_SUCCESS allItems) }
      | _, _ =>
          { fetcherInvoked := true
            state := dataReducer now2 s1 (DataAction.DOCUMENTS_LOADING_FAILURE
              (jsOrElse r.error "Failed to load documents")) }

/-- `loadDocuments(force)` from `DataContext.tsx`, sequentialized: `now` is
the clock at entry (used by the staleness check), `now2` the clock when the
fetch settles (used by the success reducer branch), `call` the behaviour of
the awaited `documentService.getAllItemsByType()`.  The two early returns
(in-flight dedup, fresh non-empty cache) leave the state untouched and never
invoke the Fetcher; otherwise the call proceeds as `docFetchOutcome`. -/
def loadDocuments (now : Nat) (state : DataState) (force : Bool)
    (call : ServiceCall ItemsByType) (now2 : Nat) : LoadResult :=
  if state.documentsLoading then { fetcherInvoked := false, state := state }
  else if !force && !(isStale now state CollType.documents)
      && decide (state.documents.length > 0) then
    { fetcherInvoked := false, state := state }
  else docFetchOutcome now now2 state call

/-- The body of `loadConversations` past its two early returns
(`DataContext.tsx`): dispatch `CONVERSATIONS_LOADING_START`, await
`conversationService.getConversations()`, then dispatch `SUCCESS` with
`result.data.conversations` or `FAILURE` with the error message. -/
def convFetchOutcome (now now2 : Nat) (state : DataState)
    (call : ServiceCall ConversationListResponse) : LoadResult :=
  let s1 := dataReducer now state DataAction.CONVERSATIONS_LOADING_START
  match call with
  | ServiceCall.throws msg =>
      { fetcherInvoked := true
        state := dataReducer now2 s1 (DataAction.CONVERSATIONS_LOADING_FAILURE msg) }
  | ServiceCall.resolves r =>
      match r.success, r.data with
      | true, some d =>
          { fetcherInvoked := true
            state := dataReducer now2 s1
              (DataAction.CONVERSATIONS_LOADING_SUCCESS d.conversations) }
      | _, _ =>
          { fetcherInvoked := true
            state := dataReducer now2 s1 (DataAction.CONVERSATIONS_LOADING_FAILURE
              (jsOrElse r.error "Failed to load conversations")) }

/-- `loadConversations(force)` from `DataContext.tsx`, sequentialized the same
way as `loadDocuments`. -/
def loadConversations (now : Nat) (state : DataState) (force : Bool)
    (call : ServiceCall ConversationListResponse) (now2 : Nat) : LoadResult :=
  if state.conversationsLoading then { fetcherInvoked := false, state := state }
  else if !force && !(isStale now state CollType.conversations)
      && decide (state.conversations.length > 0) then
    { fetcherInvoked := false, state := state }
  else convFetchOutcome now now2 state call

/-- Folding a list of reducer dispatches (each tagged with the `Date.now()`
value observed when it is processed) over a starting state. -/
def applyActions (state : DataState) (ops : List (Nat × DataAction)) : DataState :=
  ops.foldl (fun st p => dataReducer p.1 st p.2) state

/-- The email records handled by `GmailContext.tsx` (`emails: any[]`): the
fields the provider reads are `id` and `is_read`; `subject` stands for the
rest of the payload. -/
structure Email where
  id : String
  is_read : Bool
  subject : String
  deriving DecidableEq

/-- A partial update object passed to `updateEmail` and spread over an email
(`{ ...email, ...updates }`): `none` means the field is absent from the
update. -/
structure EmailUpdates where
  is_read : Option Bool
  subject : Option String
  deriving DecidableEq

/-- `{ ...email, ...updates }`: fields present in `updates` win. -/
def applyEmailUpdates (email : Email) (updates : EmailUpdates) : Email :=
  { email with
      is_read := updates.is_read.getD email.is_read
      subject := updates.subject.getD email.subject }

/-- The `useState` cells of `GmailProvider` in `GmailContext.tsx`.
`unreadCount` and `totalEmails` are JavaScript numbers that the code
increments and decrements, so they are modelled as `Int`. -/
structure GmailState where
  isConnected : Bool
  connectedEmail : Option String
  isLoading : Bool
  lastCheck : Nat
  emails : List Email
  totalEmails : Int
  unreadCount : Int
  emailsLoaded : Bool
  deriving DecidableEq

/-- JavaScript `email || null` on an optional string argument: `undefined`
and `""` both give `null`. -/
def jsOrNull (o : Option String) : Option String :=
  match o with
  | none => none
  | some s => if s == "" then none else some s

/-- `setConnectionStatus(connected, email?)` from `GmailContext.tsx`: records
the connection flag, `email || null`, and `Date.now()` as `lastCheck`; when
`connected` is false it additionally clears `emails`, `totalEmails`,
`unreadCount` and `emailsLoaded`. -/
def setConnectionStatus (connected : Bool) (email : Option String) (now : Nat)
    (s : GmailState) : GmailState :=
  let s1 := { s with
      isConnected := connected
      connectedEmail := jsOrNull email
      lastCheck := now }
  if connected then s1
  else
    { s1 with
        emails := []
        totalEmails := 0
        unreadCount := 0
        emailsLoaded := false }

/-- `updateEmail(emailId, updates)` from `GmailContext.tsx`: maps the update
over the email with the matching id, and when `updates.is_read` is present
adjusts `unreadCount` — `Math.max(0, prev - 1)` on marking read, `prev + 1` on
marking unread. -/
def updateEmail (emailId : String) (updates : EmailUpdates) (s : GmailState) : GmailState :=
  let emails := s.emails.map fun email =>
    if email.id == emailId then applyEmailUpdates email updates else email
  let unreadCount :=
    match updates.is_read with
    | none => s.unreadCount
    | some true => max 0 (s.unreadCount - 1)
    | some false => s.unreadCount + 1
  { s with emails := emails, unreadCount := unreadCount }

/-- `addEmail(email)` from `GmailContext.tsx`: prepends the email and bumps
both counters. -/
def addEmail (email : Email) (s : GmailState) : GmailState :=
  { s with
      emails := email :: s.emails
      totalEmails := s.totalEmails + 1
      unreadCount := s.unreadCount + 1 }

/-- The `User` interface of `src/pages/Landing.tsx`. -/
structure User where
  id : String
  email : String
  full_name : String
  is_active : Bool
  created_at : String
  deriving DecidableEq

/-- `AuthState` from `src/pages/Landing.tsx`. -/
structure AuthState where
  isAuthenticated : Bool
  user : Option User
  token : Option String
  loading : Bool
  error : Option String
  deriving DecidableEq

/-- The `AuthAction` union type of `src/pages/Landing.tsx`. -/
inductive AuthAction
  | LOGIN_START
  | LOGIN_SUCCESS (user : User) (token : String)
  | LOGIN_FAILURE (payload : String)
  | LOGOUT
  | CLEAR_ERROR
  deriving DecidableEq

/-- `authReducer(state, action)` from `src/pages/Landing.tsx`. -/
def authReducer (state : AuthState) (action : AuthAction) : AuthState :=
  match action with
  | AuthAction.LOGIN_START =>
      { state with loading := true, error := none }
  | AuthAction.LOGIN_SUCCESS user token =>
      { state with
          loading := false
          isAuthenticated := true
          user := some user
          token := some token
          error := none }
  | AuthAction.LOGIN_FAILURE payload =>
      { state with
          loading := false
          isAuthenticated := false
          user := none
          token := none
          error := some payload }
  | AuthAction.LOGOUT =>
      { state with
          isAuthenticated := false
          user := none
          token := none
          error := none
          loading := false }
  | AuthAction.CLEAR_ERROR =>
      { state with error := none }

/-- The combined provider state mounted by `App.tsx`:
`AuthProvider` wrapping `DataProvider` wrapping `GmailProvider`, all of which
stay mounted for the whole process lifetime. -/
structure AppState where
  auth : AuthState
  data : DataState
  gmail : GmailState
  deriving DecidableEq

/-- The effect of the `auth:unauthorized` `CustomEvent` dispatched by the 401
response interceptor in `src/lib/api.ts`.  The only registered listener for
this event in the repository is `handleUnauthorized` in `src/pages/Landing.tsx`
(the `AuthProvider`), which dispatches `LOGOUT` to `authReducer`.
`DataProvider` and `GmailProvider` register no listener for it and expose no
reducer action that clears their collections. -/
def handleUnauthorized (s : AppState) : AppState :=
  { s with auth := authReducer s.auth AuthAction.LOGOUT }

/-! ### Concrete sample values used by witnesses and counterexamples -/

/-- A sample PDF document. -/
def docA : Document :=
  { id := "doc-a", title := "Quarterly report", document_type := DocumentType.pdf
    created_at := "2024-01-01", updated_at := "2024-01-01" }

/-- A sample note. -/
def docB : Document :=
  { id := "doc-b", title := "Meeting notes", document_type := DocumentType.note
    created_at := "2024-01-02", updated_at := "2024-01-02" }

/-- A second document that reuses `docA`'s id. -/
def docA2 : Document :=
  { id := "doc-a", title := "Duplicate upload", document_type := DocumentType.note
    created_at := "2024-01-03", updated_at := "2024-01-03" }

/-- A sample conversation. -/
def convA : Conversation :=
  { id := "conv-a", title := "Chat A", message_count := 2
    created_at := "2024-01-01", updated_at := "2024-01-01" }

/-- A second conversation that reuses `convA`'s id. -/
def convA2 : Conversation :=
  { id := "conv-a", title := "Chat A again", message_count := 0
    created_at := "2024-01-04", updated_at := "2024-01-04" }

/-- A populated `DataState` whose collections were fetched at clock `1000`,
with consistent cached stats and no load in flight. -/
def freshState : DataState :=
  { initialState with
      documents := [docA]
      conversations := [convA]
      documentsLastFetch := some 1000
      conversationsLastFetch := some 1000
      hasInitializedDocuments := true
      hasInitializedConversations := true
      stats := calculateStats [docA] 1 }

/-- `freshState` with both loads marked in flight. -/
def loadingState : DataState :=
  { freshState with documentsLoading := true, conversationsLoading := true }

/-- A rejected documents fetch. -/
def failDocCall : ServiceCall ItemsByType := ServiceCall.throws "Network Error"

/-- A rejected conversations fetch. -/
def failConvCall : ServiceCall ConversationListResponse := ServiceCall.throws "Network Error"

/-- A successful documents fetch payload. -/
def sampleItems : ItemsByType := { documents := [docA], notes := [docB], audio := [] }

/-- A successful conversations fetch payload. -/
def sampleConvList : ConversationListResponse := { conversations := [convA], total := 1 }

/-- A sample unread email. -/
def emailA : Email := { id := "em-1", is_read := false, subject := "Hello" }

/-- A Gmail provider state with one loaded unread email. -/
def connectedGmail : GmailState :=
  { isConnected := true
    connectedEmail := some "user@example.com"
    isLoading := false
    lastCheck := 1000
    emails := [emailA]
    totalEmails := 1
    unreadCount := 1
    emailsLoaded := true }

/-- A sample logged-in user. -/
def sampleUser : User :=
  { id := "u1", email := "user@example.com", full_name := "User One"
    is_active := true, created_at := "2024-01-01" }

/-- A logged-in combined provider state with populated caches. -/
def sampleApp : AppState :=
  { auth :=
      { isAuthenticated := true, user := some sampleUser, token := some "tok"
        loading := false, error := none }
    data := freshState
    gmail := connectedGmail }

/-! ### Helper lemmas -/

/-- Every branch of the fetch path of `loadDocuments` invokes the Fetcher. -/
lemma docFetchOutcome_fetcherInvoked (now now2 : Nat) (state : DataState)
    (call : ServiceCall ItemsByType) :
    (docFetchOutcome now now2 state call).fetcherInvoked = true := by
  rcases call with msg | r
  · rfl
  · rcases r with ⟨succ, data, err⟩
    cases succ <;> cases data <;> rfl

/-- Every branch of the fetch path of `loadConversations` invokes the
Fetcher. -/
lemma convFetchOutcome_fetcherInvoked (now now2 : Nat) (state : DataState)
    (call : ServiceCall ConversationListResponse) :
    (convFetchOutcome now now2 state call).fetcherInvoked = true := by
  rcases call with msg | r
  · rfl
  · rcases r with ⟨succ, data, err⟩
    cases succ <;> cases data <;> rfl

/-- A `loadDocuments` call either returns early with the state untouched or
takes the fetch path. -/
lemma loadDocuments_eq_skip_or_fetch (now now2 : Nat) (s : DataState) (force : Bool)
    (call : ServiceCall ItemsByType) :
    loadDocuments now s force call now2 = { fetcherInvoked := false, state := s } ∨
    loadDocuments now s force call now2 = docFetchOutcome now now2 s call := by
  unfold loadDocuments
  split
  · exact Or.inl rfl
  · split
    · exact Or.inl rfl
    · exact Or.inr rfl

/-- A `loadConversations` call either returns early with the state untouched
or takes the fetch path. -/
lemma loadConversations_eq_skip_or_fetch (now now2 : Nat) (s : DataState) (force : Bool)
    (call : ServiceCall ConversationListResponse) :
    loadConversations now s force call now2 = { fetcherInvoked := false, state := s } ∨
    loadConversations now s force call now2 = convFetchOutcome now now2 s call := by
  unfold loadConversations
  split
  · exact Or.inl rfl
  · split
    · exact Or.inl rfl
    · exact Or.inr rfl

/-- If a `loadDocuments` call invoked the Fetcher, it took the fetch path. -/
lemma loadDocuments_invoked (now now2 : Nat) (s : DataState) (force : Bool)
    (call : ServiceCall ItemsByType)
    (hi : (loadDocuments now s force call now2).fetcherInvoked = true) :
    loadDocuments now s force call now2 = docFetchOutcome now now2 s call := by
  rcases loadDocuments_eq_skip_or_fetch now now2 s force call with h | h
  · rw [h] at hi
    exact absurd hi (by simp)
  · exact h

/-- If a `loadConversations` call invoked the Fetcher, it took the fetch
path. -/
lemma loadConversations_invoked (now now2 : Nat) (s : DataState) (force : Bool)
    (call : ServiceCall ConversationListResponse)
    (hi : (loadConversations now s force call now2).fetcherInvoked = true) :
    loadConversations now s force call now2 = convFetchOutcome now now2 s call := by
  rcases loadConversations_eq_skip_or_fetch now now2 s force call with h | h
  · rw [h] at hi
    exact absurd hi (by simp)
  · exact h

/-- `calculateStats` stores the given conversation count verbatim. -/
lemma calculateStats_totalConversations (documents : List Document) (n : Nat) :
    (calculateStats documents n).totalConversations = n := rfl

/-- The cached-stats coherence invariant of `DataState`. -/
def statsInvariant (s : DataState) : Prop :=
  s.stats = calculateStats s.documents s.conversations.length

/-- `initialState` starts with coherent stats. -/
lemma statsInvariant_initialState : statsInvariant initialState := by
  have h : calculateStats [] 0 = initialState.stats := rfl
  exact h.symm

/-- Every single reducer dispatch preserves the cached-stats coherence
invariant. -/
lemma dataReducer_statsInvariant (now : Nat) (s : DataState) (a : DataAction)
    (h : statsInvariant s) : statsInvariant (dataReducer now s a) := by
  have hconv : s.stats.totalConversations = s.conversations.length := by
    rw [h, calculateStats_totalConversations]
  cases a <;>
    simp only [statsInvariant, dataReducer] at h ⊢ <;>
    first
      | exact h
      | rfl
      | (rw [hconv])
      | (rw [List.length_map]; exact h)

/-! ### Claims -/

/-- C1: with no load in flight, a `load` with `force = false` on a fresh
non-empty collection returns immediately without invoking the Fetcher and
leaves the state unchanged, while a `load` with `force = true` always invokes
the Fetcher, for both the documents and the conversations collection. -/
theorem load_serves_cache_and_force_refetches
    (now now2 : Nat) (s : DataState)
    (dcall : ServiceCall ItemsByType) (ccall : ServiceCall ConversationListResponse)
    (hd : s.documentsLoading = false) (hc : s.conversationsLoading = false) :
    (isStale now s CollType.documents = false → s.documents.length > 0 →
      loadDocuments now s false dcall now2 = { fetcherInvoked := false, state := s }) ∧
    (loadDocuments now s true dcall now2).fetcherInvoked = true ∧
    (isStale now s CollType.conversations = false → s.conversations.length > 0 →
      loadConversations now s false ccall now2 = { fetcherInvoked := false, state := s }) ∧
    (loadConversations now s true ccall now2).fetcherInvoked = true := by
  refine ⟨?_, ?_, ?_, ?_⟩
  · intro hst hlen
    simp [loadDocuments, hd, hst, hlen]
  · have : loadDocuments now s true dcall now2 = docFetchOutcome now now2 s dcall := by
      simp [loadDocuments, hd]
    rw [this]
    exact docFetchOutcome_fetcherInvoked now now2 s dcall
  · intro hst hlen
    simp [loadConversations, hc, hst, hlen]
  · have : loadConversations now s true ccall now2 = convFetchOutcome now now2 s ccall := by
      simp [loadConversations, hc]
    rw [this]
    exact convFetchOutcome_fetcherInvoked now now2 s ccall

/-- Witness for C1: at clock `1500` the collections of `freshState` (fetched
at `1000`, TTL `180000`) are served from cache, and `force = true` reaches the
Fetcher. -/
theorem load_serves_cache_and_force_refetches_witness :
    loadDocuments 1500 freshState false failDocCall 2000
        = { fetcherInvoked := false, state := freshState } ∧
    (loadDocuments 1500 freshState true failDocCall 2000).fetcherInvoked = true ∧
    loadConversations 1500 freshState false failConvCall 2000
        = { fetcherInvoked := false, state := freshState } ∧
    (loadConversations 1500 freshState true failConvCall 2000).fetcherInvoked = true := by
  have h := load_serves_cache_and_force_refetches 1500 2000 freshState
    failDocCall failConvCall (by decide) (by decide)
  exact ⟨h.1 (by decide) (by decide), h.2.1, h.2.2.1 (by decide) (by decide), h.2.2.2⟩

/-- C3: a `load` issued while the same collection's load is already in flight
returns immediately, does not invoke the Fetcher, and leaves the state
unchanged, regardless of `force`. -/
theorem load_inflight_dedup
    (now now2 : Nat) (s : DataState) (force force2 : Bool)
    (dcall : ServiceCall ItemsByType) (ccall : ServiceCall ConversationListResponse)
    (hd : s.documentsLoading = true) (hc : s.conversationsLoading = true) :
    loadDocuments now s force dcall now2 = { fetcherInvoked := false, state := s } ∧
    loadConversations now s force2 ccall now2 = { fetcherInvoked := false, state := s } := by
  constructor
  · simp [loadDocuments, hd]
  · simp [loadConversations, hc]

/-- Witness for C3: with both loads of `loadingState` in flight, a second
`load` — even a forced one — is a no-op for both collections. -/
theorem load_inflight_dedup_witness :
    loadDocuments 1500 loadingState true failDocCall 2000
        = { fetcherInvoked := false, state := loadingState } ∧
    loadConversations 1500 loadingState true failConvCall 2000
        = { fetcherInvoked := false, state := loadingState } :=
  load_inflight_dedup 1500 2000 loadingState true true failDocCall failConvCall
    (by decide) (by decide)

/-- C2: on a fetch failure for a non-empty collection, the collection's
contents are exactly the pre-call contents, the per-collection error is the
failure message, and the last-fetch staleness mark is unchanged. -/
theorem load_failure_preserves_cache
    (now now2 : Nat) (s : DataState) (force force2 : Bool)
    (dcall : ServiceCall ItemsByType) (ccall : ServiceCall ConversationListResponse)
    (hdne : s.documents ≠ []) (hcne : s.conversations ≠ [])
    (hdf : callFails dcall = true) (hcf : callFails ccall = true)
    (hdi : (loadDocuments now s force dcall now2).fetcherInvoked = true)
    (hci : (loadConversations now s force2 ccall now2).fetcherInvoked = true) :
    ((loadDocuments now s force dcall now2).state.documents = s.documents ∧
     (loadDocuments now s force dcall now2).state.documentsError
        = some (failureMessage "Failed to load documents" dcall) ∧
     (loadDocuments now s force dcall now2).state.documentsLastFetch
        = s.documentsLastFetch) ∧
    ((loadConversations now s force2 ccall now2).state.conversations = s.conversations ∧
     (loadConversations now s force2 ccall now2).state.conversationsError
        = some (failureMessage "Failed to load conversations" ccall) ∧
     (loadConversations now s force2 ccall now2).state.conversationsLastFetch
        = s.conversationsLastFetch) := by
  constructor
  · rw [loadDocuments_invoked now now2 s force dcall hdi]
    rcases dcall with msg | r
    · exact ⟨rfl, rfl, rfl⟩
    · rcases r with ⟨succ, data, err⟩
      cases succ <;> cases data <;>
        first
          | exact ⟨rfl, rfl, rfl⟩
          | simp [callFails] at hdf
  · rw [loadConversations_invoked now now2 s force2 ccall hci]
    rcases ccall with msg | r
    · exact ⟨rfl, rfl, rfl⟩
    · rcases r with ⟨succ, data, err⟩
      cases succ <;> cases data <;>
        first
          | exact ⟨rfl, rfl, rfl⟩
          | simp [callFails] at hcf

/-- Witness for C2: a forced load of the populated `freshState` whose fetch
rejects with `"Network Error"` keeps both collections, records the message,
and keeps the `1000` staleness marks. -/
theorem load_failure_preserves_cache_witness :
    ((loadDocuments 1500 freshState true failDocCall 2000).state.documents
        = freshState.documents ∧
     (loadDocuments 1500 freshState true failDocCall 2000).state.documentsError
        = some (failureMessage "Failed to load documents" failDocCall) ∧
     (loadDocuments 1500 freshState true failDocCall 2000).state.documentsLastFetch
        = freshState.documentsLastFetch) ∧
    ((loadConversations 1500 freshState true failConvCall 2000).state.conversations
        = freshState.conversations ∧
     (loadConversations 1500 freshState true failConvCall 2000).state.conversationsError
        = some (failureMessage "Failed to load conversations" failConvCall) ∧
     (loadConversations 1500 freshState true failConvCall 2000).state.conversationsLastFetch
        = freshState.conversationsLastFetch) :=
  load_failure_preserves_cache 1500 2000 freshState true true failDocCall failConvCall
    (by decide) (by decide) (by decide) (by decide) (by decide) (by decide)

/-- C8: a load whose fetch resolves successfully replaces the collection's
contents with exactly the fetched sequence, stamps the staleness mark with the
completion clock, clears the in-flight flag, and clears any prior error. -/
theorem load_success_replaces_all
    (now now2 : Nat) (s : DataState) (force force2 : Bool)
    (d : ItemsByType) (er : Option String)
    (cd : ConversationListResponse) (er2 : Option String)
    (hdi : (loadDocuments now s force
        (ServiceCall.resolves ⟨true, some d, er⟩) now2).fetcherInvoked = true)
    (hci : (loadConversations now s force2
        (ServiceCall.resolves ⟨true, some cd, er2⟩) now2).fetcherInvoked = true) :
    ((loadDocuments now s force (ServiceCall.resolves ⟨true, some d, er⟩) now2).state.documents
        = d.documents ++ d.notes ++ d.audio ∧
     (loadDocuments now s force (ServiceCall.resolves ⟨true, some d, er⟩) now2).state.documentsLastFetch
        = some now2 ∧
     (loadDocuments now s force (ServiceCall.resolves ⟨true, some d, er⟩) now2).state.documentsLoading
        = false ∧
     (loadDocuments now s force (ServiceCall.resolves ⟨true, some d, er⟩) now2).state.documentsError
        = none) ∧
    ((loadConversations now s force2 (ServiceCall.resolves ⟨true, some cd, er2⟩) now2).state.conversations
        = cd.conversations ∧
     (loadConversations now s force2 (ServiceCall.resolves ⟨true, some cd, er2⟩) now2).state.conversationsLastFetch
        = some now2 ∧
     (loadConversations now s force2 (ServiceCall.resolves ⟨true, some cd, er2⟩) now2).state.conversationsLoading
        = false ∧
     (loadConversations now s force2 (ServiceCall.resolves ⟨true, some cd, er2⟩) now2).state.conversationsError
        = none) := by
  constructor
  · rw [loadDocuments_invoked now now2 s force (ServiceCall.resolves ⟨true, some d, er⟩) hdi]
    exact ⟨rfl, rfl, rfl, rfl⟩
  · rw [loadConversations_invoked now now2 s force2
      (ServiceCall.resolves ⟨true, some cd, er2⟩) hci]
    exact ⟨rfl, rfl, rfl, rfl⟩

/-- Witness for C8: a forced load of `freshState` whose fetch resolves with
`sampleItems` / `sampleConvList` at clock `2000` installs exactly those
sequences, stamps `2000`, and clears the flags. -/
theorem load_success_replaces_all_witness :
    ((loadDocuments 1500 freshState true
        (ServiceCall.resolves ⟨true, some sampleItems, none⟩) 2000).state.documents
        = sampleItems.documents ++ sampleItems.notes ++ sampleItems.audio ∧
     (loadDocuments 1500 freshState true
        (ServiceCall.resolves ⟨true, some sampleItems, none⟩) 2000).state.documentsLastFetch
        = some 2000 ∧
     (loadDocuments 1500 freshState true
        (ServiceCall.resolves ⟨true, some sampleItems, none⟩) 2000).state.documentsLoading
        = false ∧
     (loadDocuments 1500 freshState true
        (ServiceCall.resolves ⟨true, some sampleItems, none⟩) 2000).state.documentsError
        = none) ∧
    ((loadConversations 1500 freshState true
        (ServiceCall.resolves ⟨true, some sampleConvList, none⟩) 2000).state.conversations
        = sampleConvList.conversations ∧
     (loadConversations 1500 freshState true
        (ServiceCall.resolves ⟨true, some sampleConvList, none⟩) 2000).state.conversationsLastFetch
        = some 2000 ∧
     (loadConversations 1500 freshState true
        (ServiceCall.resolves ⟨true, some sampleConvList, none⟩) 2000).state.conversationsLoading
        = false ∧
     (loadConversations 1500 freshState true
        (ServiceCall.resolves ⟨true, some sampleConvList, none⟩) 2000).state.conversationsError
        = none) :=
  load_success_replaces_all 1500 2000 freshState true true sampleItems none
    sampleConvList none (by decide) (by decide)

/-- C4 counterexample: `freshState` already holds a document with id
`"doc-a"` and a conversation with id `"conv-a"`, yet `ADD_DOCUMENT` of
`docA2` (same id `"doc-a"`) and `ADD_CONVERSATION` of `convA2` (same id
`"conv-a"`) are not no-ops: they append/prepend the duplicate, leaving two
entities with the same id in the collection. -/
theorem add_duplicate_id_counterexample :
    docA2.id = docA.id ∧
    (dataReducer 0 freshState (DataAction.ADD_DOCUMENT docA2)).documents
        = [docA, docA2] ∧
    (dataReducer 0 freshState (DataAction.ADD_DOCUMENT docA2)).documents.map Document.id
        = ["doc-a", "doc-a"] ∧
    convA2.id = convA.id ∧
    (dataReducer 0 freshState (DataAction.ADD_CONVERSATION convA2)).conversations
        = [convA2, convA] ∧
    (dataReducer 0 freshState (DataAction.ADD_CONVERSATION convA2)).conversations.map
        Conversation.id = ["conv-a", "conv-a"] := by
  decide

/-- C4 amended: `ADD_DOCUMENT` appends and `ADD_CONVERSATION` prepends the
payload unconditionally — the reducer performs no id check, so adding an
entity whose id already exists duplicates the id within the collection. -/
theorem add_appends_unconditionally (now : Nat) (s : DataState)
    (d : Document) (c : Conversation) :
    (dataReducer now s (DataAction.ADD_DOCUMENT d)).documents = s.documents ++ [d] ∧
    (dataReducer now s (DataAction.ADD_CONVERSATION c)).conversations
        = c :: s.conversations :=
  ⟨rfl, rfl⟩

/-- C5 counterexample: firing the `auth:unauthorized` event on the logged-in
`sampleApp` (whose documents collection is the non-empty `[docA]`) leaves the
documents and conversations collections, their staleness marks, and the Gmail
email list untouched — nothing is cleared to empty. -/
theorem unauthorized_keeps_collections_counterexample :
    (handleUnauthorized sampleApp).data.documents = [docA] ∧
    (handleUnauthorized sampleApp).data.documents ≠ [] ∧
    (handleUnauthorized sampleApp).data.conversations = [convA] ∧
    (handleUnauthorized sampleApp).data.documentsLastFetch = some 1000 ∧
    (handleUnauthorized sampleApp).data.conversationsLastFetch = some 1000 ∧
    (handleUnauthorized sampleApp).gmail.emails = [emailA] := by
  decide

/-- C5 amended: the `auth:unauthorized` event only resets the auth provider
state (`isAuthenticated` false, `user`/`token`/`error` null, `loading` false);
the `DataContext` collections with their staleness marks and the
`GmailContext` email state are left entirely unchanged, since neither
provider listens for the event nor has a clearing action. -/
theorem unauthorized_resets_auth_only (s : AppState) :
    (handleUnauthorized s).data = s.data ∧
    (handleUnauthorized s).gmail = s.gmail ∧
    (handleUnauthorized s).auth =
      { s.auth with
          isAuthenticated := false
          user := none
          token := none
          error := none
          loading := false } :=
  ⟨rfl, rfl, rfl⟩

/-- C6: after any sequence of reducer dispatches from `initialState` — in
particular any mix of add/update/delete/replace-all on either collection —
the cached `stats` record equals `calculateStats` recomputed from the current
documents list and the current conversation count. -/
theorem stats_consistency (ops : List (Nat × DataAction)) :
    (applyActions initialState ops).stats =
      calculateStats (applyActions initialState ops).documents
        (applyActions initialState ops).conversations.length := by
  have main : ∀ (l : List (Nat × DataAction)) (s : DataState),
      statsInvariant s → statsInvariant (applyActions s l) := by
    intro l
    induction l with
    | nil => intro s h; exact h
    | cons p rest ih =>
        intro s h
        exact ih (dataReducer p.1 s p.2) (dataReducer_statsInvariant p.1 s p.2 h)
  exact main ops initialState statsInvariant_initialState

/-- C7: for a mark recorded at a positive clock value `t`, `isStale` at query
clock `now` is true exactly when the elapsed time exceeds `CACHE_DURATION`,
and a collection with no recorded mark is always stale — for both
collections. -/
theorem isStale_iff_elapsed_exceeds_ttl (now t : Nat) (s : DataState) (h0 : 0 < t) :
    (s.documentsLastFetch = none → isStale now s CollType.documents = true) ∧
    (s.documentsLastFetch = some t →
      (isStale now s CollType.documents = true ↔ CACHE_DURATION < now - t)) ∧
    (s.conversationsLastFetch = none → isStale now s CollType.conversations = true) ∧
    (s.conversationsLastFetch = some t →
      (isStale now s CollType.conversations = true ↔ CACHE_DURATION < now - t)) := by
  have ht : (t == 0) = false := by
    simp [Nat.pos_iff_ne_zero.mp h0]
  refine ⟨?_, ?_, ?_, ?_⟩ <;> intro h <;> simp [isStale, h, ht, gt_iff_lt]

/-- Witness for C7: `freshState` is marked at `1000`; at clock `100000`
(elapsed `99000 ≤ 180000`) it is not stale, at clock `200000` (elapsed
`199000 > 180000`) it is, and the never-fetched `initialState` is stale. -/
theorem isStale_iff_elapsed_exceeds_ttl_witness :
    0 < 1000 ∧
    (isStale 200000 freshState CollType.documents = true ↔
      CACHE_DURATION < 200000 - 1000) ∧
    (isStale 100000 freshState CollType.conversations = true ↔
      CACHE_DURATION < 100000 - 1000) ∧
    isStale 5 initialState CollType.documents = true := by
  have h1 := isStale_iff_elapsed_exceeds_ttl 200000 1000 freshState (by decide)
  have h2 := isStale_iff_elapsed_exceeds_ttl 100000 1000 freshState (by decide)
  have h3 := isStale_iff_elapsed_exceeds_ttl 5 1000 initialState (by decide)
  exact ⟨by decide, h1.2.1 (by decide), h2.2.2.2 (by decide), h3.1 (by decide)⟩

/-- C9: `setConnectionStatus(false)` clears the whole email state together —
empty email list, zero totals, zero unread, not loaded — and nulls the
connected address, while recording the disconnect time. -/
theorem setConnectionStatus_disconnect_clears (s : GmailState) (now : Nat) :
    setConnectionStatus false none now s =
      { s with
          isConnected := false
          connectedEmail := none
          lastCheck := now
          emails := []
          totalEmails := 0
          unreadCount := 0
          emailsLoaded := false } :=
  rfl

/-- C10: `updateEmail` never drives `unreadCount` negative: the decrement on
marking an email read is clamped at zero. -/
theorem updateEmail_unread_nonneg (emailId : String) (updates : EmailUpdates)
    (s : GmailState) (h : 0 ≤ s.unreadCount) :
    0 ≤ (updateEmail emailId updates s).unreadCount := by
  unfold updateEmail
  rcases updates with ⟨ir, subj⟩
  rcases ir with _ | b
  · simpa using h
  · cases b
    · show 0 ≤ s.unreadCount + 1
      omega
    · show 0 ≤ max 0 (s.unreadCount - 1)
      exact le_max_left 0 (s.unreadCount - 1)

/-- Witness for C10: marking the single unread email of `connectedGmail` read
twice in a row — the second decrement is the clamped case — keeps
`unreadCount` at `0`, not `-1`. -/
theorem updateEmail_unread_nonneg_witness :
    0 ≤ connectedGmail.unreadCount ∧
    0 ≤ (updateEmail "em-1" { is_read := some true, subject := none }
          (updateEmail "em-1" { is_read := some true, subject := none }
            connectedGmail)).unreadCount :=
  ⟨by decide,
   updateEmail_unread_nonneg "em-1" { is_read := some true, subject := none }
     (updateEmail "em-1" { is_read := some true, subject := none } connectedGmail)
     (by decide)⟩

end BusinessBrain


